import Mathlib

/-!
Shallow embedding of the pagination / normalization / admission-control core
of the okta_mcp server:

* `okta_mcp/utils/normalize_okta_responses.py`
  (`normalize_okta_response`, `paginate_okta_response`), and
* `okta_mcp/utils/request_manager.py` (`RequestManager`).

Python dynamic values are modelled by the inductive `PyVal`; operations that
can raise (`iter`, tuple unpacking) return `Except PyExc`; the walker's
`try/except Exception` is modelled by handling every `.error` result inside
the loop body.
-/

/-- Exceptions raised by Python operations (`TypeError` from iterating a
non-iterable, `ValueError` from a mismatched unpack).  These are what the
`try/except Exception` block in `paginate_okta_response` can catch. -/
inductive PyExc where
  | typeError (msg : String)
  | valueError (msg : String)

/-- Dynamically typed Python values, restricted to the shapes the code under
verification probes: `None`, booleans, ints, strings, tuples, lists, objects
with an attribute table, and exception *values* (the `ValueError` built by
`normalize_okta_response` interpolates the offending response into its
message; we model that by storing the response itself as the payload). -/
inductive PyVal where
  | pnone
  | pbool (b : Bool)
  | pint (n : Int)
  | pstr (s : String)
  | ptuple (es : List PyVal)
  | plist (es : List PyVal)
  | pobj (oid : Nat) (attrs : List (String × PyVal))
  | pexc (kind : String) (payload : PyVal)

/-- Python truthiness: `None` is falsy, numbers and strings are falsy when
zero/empty, containers are falsy when empty, objects and exception values are
truthy. -/
def truthy : PyVal → Bool
  | .pnone => false
  | .pbool b => b
  | .pint n => n != 0
  | .pstr s => s != ""
  | .ptuple es => !es.isEmpty
  | .plist es => !es.isEmpty
  | .pobj _ _ => true
  | .pexc _ _ => true

/-- Attribute lookup in an object's attribute table. -/
def lookupAttr : List (String × PyVal) → String → Option PyVal
  | [], _ => Option.none
  | (k, v) :: rest, name => if k = name then Option.some v else lookupAttr rest name

/-- `hasattr(v, name)` for the attribute names the code probes (`as_dict`,
`response`, `has_next`); none of the non-object values carries any of them. -/
def pyHasattr (v : PyVal) (name : String) : Bool :=
  match v with
  | .pobj _ attrs => (lookupAttr attrs name).isSome
  | _ => false

/-- `getattr(v, name, default)`. -/
def pyGetattrD (v : PyVal) (name : String) (dflt : PyVal) : PyVal :=
  match v with
  | .pobj _ attrs => (lookupAttr attrs name).getD dflt
  | _ => dflt

/-- Iterating a Python value: lists, tuples and strings are iterable; `None`,
numbers, plain objects and exceptions raise `TypeError`. -/
def pyIter : PyVal → Except PyExc (List PyVal)
  | .plist es => .ok es
  | .ptuple es => .ok es
  | .pstr s => .ok (s.data.map (fun ch => .pstr (String.mk [ch])))
  | _ => .error (.typeError "object is not iterable")

/-- `a, b = v`: unpack an iterable of exactly two elements; raises on a
non-iterable (`TypeError`) or a wrong element count (`ValueError`). -/
def unpack2 (v : PyVal) : Except PyExc (PyVal × PyVal) :=
  match pyIter v with
  | .error e => .error e
  | .ok [a, b] => .ok (a, b)
  | .ok _ => .error (.valueError "unpack mismatch")

/-- The item filter used on every page:
`[r for r in xs if r and hasattr(r, 'as_dict')]`. -/
def filterValid (xs : List PyVal) : List PyVal :=
  xs.filter (fun r => truthy r && pyHasattr r "as_dict")

/-- `normalize_okta_response(response)` from
`okta_mcp/utils/normalize_okta_responses.py`, lines 12-39:

* a 3-tuple is returned as-is (already `(results, resp, err)`),
* a 2-tuple `(results, resp)` gains `err = None`,
* any other tuple yields `(None, None, ValueError(...))` where the error
  message interpolates the whole response (modelled as the payload),
* any non-tuple is returned itself as the results slot, with
  `getattr(response, 'response', None)` as the resp slot and `None` error. -/
def normalize_okta_response (response : PyVal) : Except PyExc (PyVal × PyVal × PyVal) :=
  match response with
  | .ptuple [a, b, c] => .ok (a, b, c)
  | .ptuple [a, b] => .ok (a, b, .pnone)
  | .ptuple es => .ok (.pnone, .pnone, .pexc "ValueError" (.ptuple es))
  | v => .ok (v, pyGetattrD v "response" .pnone, .pnone)

/-- The response/cursor object handed to `paginate_okta_response` as
`initial_resp`.  The variable `response` in the code is never reassigned —
the Okta SDK object mutates internally as pages are consumed — so we model
its observable behaviour as functions of the number of `next()` calls made so
far: `hasNextFn k` is what `response.has_next()` returns (or raises) after
`k` fetches, and `nextFn k` is what `await response.next()` returns (or
raises) as the `k`-th fetch.  `val` is the object's own value, used for
truthiness, `hasattr(response, 'has_next')`, and the returned `response`. -/
structure Cursor where
  val : PyVal
  hasNextFn : Nat → Except PyExc PyVal
  nextFn : Nat → Except PyExc PyVal

/-- The `while` loop of `paginate_okta_response` (lines 57-80).  `fuel` is
`max_pages - page_count` (the loop guard `page_count < max_pages` holds iff
`fuel > 0`); `pc` is `page_count`, `acc` is `all_results`, and `f` counts the
`response.next()` calls performed so far.  Every raising operation inside the
loop (`has_next()`, `next()`, unpacking, iterating the page) is caught by the
surrounding `try/except Exception`, which just logs and falls through to the
return — so each `.error` terminates the loop with the state accumulated so
far.  A page whose error slot is truthy triggers `break` (line 71) after
`page_count` was already incremented (line 64). -/
def walkLoop (c : Cursor) : Nat → Nat → List PyVal → Nat → List PyVal × Nat × Nat
  | 0, pc, acc, f => (acc, pc, f)
  | fuel + 1, pc, acc, f =>
    if truthy c.val && pyHasattr c.val "has_next" then
      match c.hasNextFn f with
      | .error _ => (acc, pc, f)
      | .ok hn =>
        if truthy hn then
          match c.nextFn f with
          | .error _ => (acc, pc + 1, f + 1)
          | .ok r =>
            match unpack2 r with
            | .error _ => (acc, pc + 1, f + 1)
            | .ok (us, er) =>
              if truthy er then (acc, pc + 1, f + 1)
              else
                match pyIter us with
                | .error _ => (acc, pc + 1, f + 1)
                | .ok xs => walkLoop c fuel (pc + 1) (acc ++ filterValid xs) (f + 1)
        else (acc, pc, f)
    else (acc, pc, f)

/-- The value returned by `paginate_okta_response`: the 4-tuple
`(all_results, response, err, page_count)`, plus `fetches`, a ghost counter
of how many `response.next()` calls the walk performed. -/
structure PagResult where
  results : PyVal
  resp : PyVal
  err : PyVal
  page_count : Nat
  fetches : Nat

/-- `paginate_okta_response(initial_results, initial_resp, initial_err)` from
`okta_mcp/utils/normalize_okta_responses.py`, lines 42-83.  `initial_resp` is
the cursor `c`; `max_pages` stands for the module constant
`DEFAULT_PAGINATION_LIMIT` (read from the environment at import time).  If
`initial_err` is truthy the function returns
`(initial_results, initial_resp, initial_err, 1)` at once, with no fetch.
Otherwise line 50 filters `initial_results` by iterating it — OUTSIDE the
`try`, so a non-iterable value raises out of the function — and the loop
walks continuation pages; the final return (line 83) always carries `None`
in the error slot. -/
def paginate_okta_response (initial_results : PyVal) (c : Cursor) (initial_err : PyVal)
    (max_pages : Nat) : Except PyExc PagResult :=
  if truthy initial_err then .ok ⟨initial_results, c.val, initial_err, 1, 0⟩
  else
    match pyIter initial_results with
    | .error e => .error e
    | .ok raw =>
      let r := walkLoop c (max_pages - 1) 1 (filterValid raw) 0
      .ok ⟨.plist r.1, c.val, .pnone, r.2.1, r.2.2⟩

/-- A trivial cursor used to instantiate witnesses: a falsy `None` response
object, so the loop guard `response and ...` fails immediately. -/
def noneCursor : Cursor :=
  ⟨.pnone, fun _ => .ok .pnone, fun _ => .ok .pnone⟩

/-- A maximally misbehaving cursor: truthy, advertises `has_next`, and raises
on every `has_next()` and `next()` call. -/
def raisingCursor : Cursor :=
  ⟨.pobj 0 [("has_next", .pnone)],
   fun _ => .error (.typeError "has_next blew up"),
   fun _ => .error (.typeError "next blew up")⟩

/-- A scripted page: either a page of items delivered as
`await response.next() = (items, None)`, or a failing page delivered as
`(None, error)`. -/
inductive PageSpec where
  | good (items : List PyVal)
  | bad (e : PyVal)

/-- The raw value of the `k`-th `next()` call of a scripted cursor; past the
end of the script it keeps producing empty good pages. -/
def specOutcome : Option PageSpec → Except PyExc PyVal
  | Option.some (.good its) => .ok (.ptuple [.plist its, .pnone])
  | Option.some (.bad e) => .ok (.ptuple [.pnone, e])
  | Option.none => .ok (.ptuple [.plist [], .pnone])

/-- A scripted cursor: a truthy response object exposing `has_next` (always
truthy — a cursor that always claims more pages) whose `k`-th `next()` call
returns `specs[k]`. -/
def pagesCursor (specs : List PageSpec) : Cursor :=
  ⟨.pobj 0 [("has_next", .pnone)],
   fun _ => .ok (.pbool true),
   fun k => specOutcome specs[k]?⟩

/-- A valid item (truthy object carrying `as_dict`), as the page filter
expects. -/
def mkItem (i : Nat) : PyVal :=
  .pobj i [("as_dict", .pnone)]

/-- Ten consecutive valid items. -/
def tenItems (base : Nat) : List PyVal :=
  (List.range 10).map (fun i => mkItem (base + i))

/-- Observable state of one shared `RequestManager`
(`okta_mcp/utils/request_manager.py`): `active` is `self.active_requests`,
`queue` the ids of queued task descriptors (`self.request_queue`, FIFO),
`running` the ids of calls whose coroutine is currently executing.
`submitted`/`completed` are ghost counters of `execute()` entries and of
completed calls (success or exception). -/
structure RMState where
  active : Nat
  queue : List Nat
  running : List Nat
  submitted : Nat
  completed : Nat

/-- A freshly constructed manager: no active, queued or running calls. -/
def RMState.start : RMState :=
  ⟨0, [], [], 0, 0⟩

/-- Atomic transitions of the manager.  Every mutation of `active_requests`
and of the queue happens under `self.lock`, so the lock-protected sections
are the atomic steps:

* `submitRun`: `execute()` finds `active_requests < concurrent_limit`,
  increments the counter and runs the call at once (lines 56-60, 66-69);
* `submitQueue`: `execute()` finds the limit reached and enqueues the
  descriptor (lines 61-64);
* `completeNoQueue`: a call finishes (returning or raising — the `ok` flag
  records which, and does not affect the accounting, since the `finally`
  block always runs `_release_slot`) and the queue is empty, so the slot is
  released by decrementing the counter (lines 91-93);
* `completePromote`: a call finishes while the queue is non-empty: the head
  descriptor is dequeued and handed the slot directly — `active_requests` is
  neither decremented nor incremented (lines 87-97, 106-113). -/
inductive RMStep (limit : Nat) : RMState → RMState → Prop where
  | submitRun (s : RMState) (id : Nat) (h : s.active < limit) :
      RMStep limit s ⟨s.active + 1, s.queue, id :: s.running, s.submitted + 1, s.completed⟩
  | submitQueue (s : RMState) (id : Nat) (h : ¬ s.active < limit) :
      RMStep limit s ⟨s.active, s.queue ++ [id], s.running, s.submitted + 1, s.completed⟩
  | completeNoQueue (s : RMState) (id : Nat) (ok : Bool) (h : id ∈ s.running)
      (hq : s.queue = []) :
      RMStep limit s ⟨s.active - 1, [], s.running.erase id, s.submitted, s.completed + 1⟩
  | completePromote (s : RMState) (id q : Nat) (ok : Bool) (rest : List Nat)
      (h : id ∈ s.running) (hq : s.queue = q :: rest) :
      RMStep limit s ⟨s.active, rest, q :: s.running.erase id, s.submitted, s.completed + 1⟩

/-- States reachable from a freshly constructed manager. -/
inductive RMReachable (limit : Nat) : RMState → Prop where
  | start : RMReachable limit RMState.start
  | step {s t : RMState} : RMReachable limit s → RMStep limit s t → RMReachable limit t

/-- The manager's inductive invariant: the counter counts exactly the
running calls, never exceeds the limit, and every submitted call is
accounted for exactly once — completed, running, or queued. -/
def RMInv (limit : Nat) (s : RMState) : Prop :=
  s.active = s.running.length ∧ s.active ≤ limit ∧
  s.submitted = s.completed + s.active + s.queue.length

/-- C6: `normalize_okta_response` is total — it returns a well-formed
`(items, cursor, error)` triple on every input and never raises — and a
`None` input normalizes to `(items=None, cursor=None, error=None)`. -/
theorem normalize_total_and_none :
    (∀ v : PyVal, ∃ t, normalize_okta_response v = .ok t) ∧
    normalize_okta_response .pnone = .ok (.pnone, .pnone, .pnone) := by
  constructor
  · intro v
    unfold normalize_okta_response
    split <;> exact ⟨_, rfl⟩
  · rfl

/-- C7 counterexample: a bare object (oid 7, no attributes, hence no cursor
attribute) normalizes to `(items = the object itself, cursor=None,
error=None)`; the items slot is the object, NOT the singleton list containing
it that the claim demands. -/
theorem normalize_bare_not_wrapped :
    normalize_okta_response (.pobj 7 []) = .ok (.pobj 7 [], .pnone, .pnone) ∧
    PyVal.pobj 7 [] ≠ PyVal.plist [.pobj 7 []] :=
  ⟨rfl, fun h => nomatch h⟩

/-- C7 amended: the exact case analysis of `normalize_okta_response`:
a 3-tuple passes through as-is; a 2-tuple gains a `None` error; a tuple of
any other length yields `(None, None, ValueError carrying the offending
response)` — the element count is only logged, not stored in the returned
error; and a non-tuple input is returned itself in the items slot (not
wrapped in a list), with its `response` attribute (or `None`) as cursor and a
`None` error. -/
theorem normalize_cases :
    (∀ a b c : PyVal, normalize_okta_response (.ptuple [a, b, c]) = .ok (a, b, c)) ∧
    (∀ a b : PyVal, normalize_okta_response (.ptuple [a, b]) = .ok (a, b, .pnone)) ∧
    (∀ es : List PyVal, es.length ≠ 2 → es.length ≠ 3 →
      normalize_okta_response (.ptuple es) =
        .ok (.pnone, .pnone, .pexc "ValueError" (.ptuple es))) ∧
    (∀ v : PyVal, (∀ es, v ≠ .ptuple es) →
      normalize_okta_response v = .ok (v, pyGetattrD v "response" .pnone, .pnone)) := by
  refine ⟨fun a b c => rfl, fun a b => rfl, ?_, ?_⟩
  · intro es h2 h3
    match es with
    | [] => rfl
    | [a] => rfl
    | [a, b] => exact absurd rfl h2
    | [a, b, c] => exact absurd rfl h3
    | a :: b :: c :: d :: rest => rfl
  · intro v hv
    match v with
    | .pnone => rfl
    | .pbool b => rfl
    | .pint n => rfl
    | .pstr s => rfl
    | .plist es => rfl
    | .pobj oid attrs => rfl
    | .pexc k p => rfl
    | .ptuple es => exact absurd rfl (hv es)

/-- Witness for the amended C7 theorem at concrete inputs: a 1-tuple is
reported as a `ValueError` carrying the tuple, and a bare int normalizes to
itself with `None` cursor and error. -/
theorem normalize_cases_witness :
    normalize_okta_response (.ptuple [.pnone]) =
      .ok (.pnone, .pnone, .pexc "ValueError" (.ptuple [.pnone])) ∧
    normalize_okta_response (.pint 5) = .ok (.pint 5, .pnone, .pnone) :=
  ⟨normalize_cases.2.2.1 [.pnone] (by decide) (by decide),
   normalize_cases.2.2.2 (.pint 5) (fun es h => nomatch h)⟩

/-- The walker's fetch counter grows by at most `fuel`. -/
theorem walkLoop_fetches_le (c : Cursor) (fuel : Nat) :
    ∀ pc acc f, (walkLoop c fuel pc acc f).2.2 ≤ f + fuel := by
  induction fuel with
  | zero => intro pc acc f; simp [walkLoop]
  | succ n ih =>
    intro pc acc f
    unfold walkLoop
    split
    · cases hh : c.hasNextFn f with
      | error e => simpa using Nat.le_add_right f (n + 1)
      | ok hn =>
        simp only
        split
        · cases hn2 : c.nextFn f with
          | error e => simpa using by omega
          | ok r =>
            simp only
            cases hu : unpack2 r with
            | error e => simpa using by omega
            | ok p =>
              simp only
              split
              · simpa using by omega
              · cases hi : pyIter p.1 with
                | error e => simpa using by omega
                | ok xs =>
                  simp only
                  calc (walkLoop c n (pc + 1) (acc ++ filterValid xs) (f + 1)).2.2
                      ≤ (f + 1) + n := ih (pc + 1) (acc ++ filterValid xs) (f + 1)
                    _ ≤ f + (n + 1) := by omega
        · simpa using Nat.le_add_right f (n + 1)
    · simpa using Nat.le_add_right f (n + 1)

/-- The walker never decreases `page_count`. -/
theorem walkLoop_pc_ge (c : Cursor) (fuel : Nat) :
    ∀ pc acc f, pc ≤ (walkLoop c fuel pc acc f).2.1 := by
  induction fuel with
  | zero => intro pc acc f; simp [walkLoop]
  | succ n ih =>
    intro pc acc f
    unfold walkLoop
    split
    · cases hh : c.hasNextFn f with
      | error e => simp
      | ok hn =>
        simp only
        split
        · cases hn2 : c.nextFn f with
          | error e => simp
          | ok r =>
            simp only
            cases hu : unpack2 r with
            | error e => simp
            | ok p =>
              simp only
              split
              · simp
              · cases hi : pyIter p.1 with
                | error e => simp
                | ok xs =>
                  simp only
                  calc pc ≤ pc + 1 := Nat.le_succ pc
                    _ ≤ _ := ih (pc + 1) (acc ++ filterValid xs) (f + 1)
        · simp
    · simp

/-- C4: when the initial normalized response carries an error value, the
walker returns immediately: the error is surfaced unchanged to the caller
next to the untouched initial data, and zero `next()` fetches (hence no
upstream call) are performed.  (The returned `page_count` is 1: the initial
page is counted.) -/
theorem paginate_initial_error (initial_results : PyVal) (c : Cursor)
    (kind : String) (payload : PyVal) (max_pages : Nat) :
    paginate_okta_response initial_results c (.pexc kind payload) max_pages =
      .ok ⟨initial_results, c.val, .pexc kind payload, 1, 0⟩ := by
  simp [paginate_okta_response, truthy]

/-- C5: the walk always terminates (it is a total function of its fuel) and,
for positive `max_pages`, every result it returns was produced with at most
`max_pages` calls to `response.next()` — in fact the loop stops at the page
budget, at a falsy `has_next()`, or at the first error, whichever comes
first. -/
theorem paginate_fetch_bound (initial_results : PyVal) (c : Cursor) (initial_err : PyVal)
    (max_pages : Nat) (hmp : 0 < max_pages) (res : PagResult)
    (h : paginate_okta_response initial_results c initial_err max_pages = .ok res) :
    res.fetches ≤ max_pages := by
  unfold paginate_okta_response at h
  split at h
  · cases h
    exact Nat.zero_le _
  · cases hi : pyIter initial_results with
    | error e => rw [hi] at h; cases h
    | ok raw =>
      rw [hi] at h
      cases h
      have hb := walkLoop_fetches_le c (max_pages - 1) 1 (filterValid raw) 0
      simp only
      omega

/-- Witness for C5: a walk over the trivial cursor with budget 1 performs 0
fetches. -/
theorem paginate_fetch_bound_witness :
    (⟨.plist [], PyVal.pnone, .pnone, 1, 0⟩ : PagResult).fetches ≤ 1 :=
  paginate_fetch_bound (.plist []) noneCursor .pnone 1 (by decide)
    ⟨.plist [], .pnone, .pnone, 1, 0⟩ rfl

/-- C10: every value returned by `paginate_okta_response` has
`page_count ≥ 1`: the initial-error branch returns 1 and the loop starts
from 1 and never decreases it, so a caller can never observe 0. -/
theorem paginate_page_count_pos (initial_results : PyVal) (c : Cursor) (initial_err : PyVal)
    (max_pages : Nat) (res : PagResult)
    (h : paginate_okta_response initial_results c initial_err max_pages = .ok res) :
    1 ≤ res.page_count := by
  unfold paginate_okta_response at h
  split at h
  · cases h
    exact Nat.le_refl 1
  · cases hi : pyIter initial_results with
    | error e => rw [hi] at h; cases h
    | ok raw =>
      rw [hi] at h
      cases h
      exact walkLoop_pc_ge c (max_pages - 1) 1 (filterValid raw) 0

/-- Witness for C10 at a concrete input. -/
theorem paginate_page_count_pos_witness :
    1 ≤ (⟨.plist [], PyVal.pnone, .pnone, 1, 0⟩ : PagResult).page_count :=
  paginate_page_count_pos (.plist []) noneCursor .pnone 1
    ⟨.plist [], .pnone, .pnone, 1, 0⟩ rfl

/-- C8 counterexample: with `initial_results = None` and no initial error,
the list comprehension at line 50 iterates `None` OUTSIDE the `try` block,
so `paginate_okta_response` raises a `TypeError` instead of returning — the
claim that every input (including null initial items) returns normally is
false. -/
theorem paginate_none_raises :
    paginate_okta_response .pnone noneCursor .pnone 3 =
      .error (.typeError "object is not iterable") :=
  rfl

/-- C8 amended: whenever the initial items are iterable (or an initial error
short-circuits the walk), `paginate_okta_response` returns normally for
EVERY cursor behaviour — all shape errors, unpack failures and exceptions
raised by `has_next()`/`next()` during the walk are caught by the
`try/except` and degrade to early termination; only a non-iterable initial
items value makes the function raise (at line 50, outside the `try`). -/
theorem paginate_total_of_iterable (initial_results : PyVal) (c : Cursor)
    (initial_err : PyVal) (max_pages : Nat)
    (h : (∃ xs, pyIter initial_results = .ok xs) ∨ truthy initial_err = true) :
    ∃ res, paginate_okta_response initial_results c initial_err max_pages = .ok res := by
  unfold paginate_okta_response
  cases ht : truthy initial_err with
  | true => exact ⟨_, rfl⟩
  | false =>
    simp only [Bool.false_eq_true, if_false]
    rcases h with ⟨xs, hxs⟩ | h
    · rw [hxs]
      exact ⟨_, rfl⟩
    · rw [ht] at h
      cases h

/-- Witness for the amended C8 theorem: an empty initial list walks to a
normal result even though the cursor raises on every call. -/
theorem paginate_total_of_iterable_witness :
    ∃ res, paginate_okta_response (.plist []) raisingCursor .pnone 5 = .ok res :=
  paginate_total_of_iterable (.plist []) raisingCursor .pnone 5 (Or.inl ⟨[], rfl⟩)

/-- Consuming the head of a scripted cursor: walking the tail from fetch
index `f` is the same as walking the whole script from index `f + 1`, up to
the fetch counter offset. -/
theorem walkLoop_pagesCursor_shift (s : PageSpec) (specs : List PageSpec) (fuel : Nat) :
    ∀ pc acc f,
      walkLoop (pagesCursor (s :: specs)) fuel pc acc (f + 1) =
        ((walkLoop (pagesCursor specs) fuel pc acc f).1,
         (walkLoop (pagesCursor specs) fuel pc acc f).2.1,
         (walkLoop (pagesCursor specs) fuel pc acc f).2.2 + 1) := by
  induction fuel with
  | zero => intro pc acc f; rfl
  | succ n ih =>
    intro pc acc f
    unfold walkLoop
    simp only [pagesCursor, List.getElem?_cons_succ]
    cases hsf : specs[f]? with
    | none =>
      simp only [specOutcome, unpack2, pyIter, truthy, filterValid, List.filter_nil]
      exact ih (pc + 1) (acc ++ []) (f + 1)
    | some sp =>
      cases sp with
      | good its =>
        simp only [specOutcome, unpack2, pyIter, truthy]
        exact ih (pc + 1) (acc ++ filterValid its) (f + 1)
      | bad e =>
        simp only [specOutcome, unpack2, pyIter]
        cases he : truthy e <;>
          simp [he, truthy, pyHasattr, lookupAttr]

/-- One step of the walk over a scripted cursor: the guard is always true
(a truthy object with `has_next` that always answers yes), so the step is
decided by the scripted outcome of the `f`-th fetch. -/
theorem walkLoop_pagesCursor_succ (specs : List PageSpec) (n pc f : Nat) (acc : List PyVal) :
    walkLoop (pagesCursor specs) (n + 1) pc acc f =
      match specOutcome specs[f]? with
      | .error _ => (acc, pc + 1, f + 1)
      | .ok r =>
        match unpack2 r with
        | .error _ => (acc, pc + 1, f + 1)
        | .ok (us, er) =>
          if truthy er then (acc, pc + 1, f + 1)
          else
            match pyIter us with
            | .error _ => (acc, pc + 1, f + 1)
            | .ok xs => walkLoop (pagesCursor specs) n (pc + 1) (acc ++ filterValid xs) (f + 1) :=
  rfl

/-- Walking a script of good pages followed by a failing page: the loop
appends the filtered items of every good page, then the failing fetch breaks
AFTER `page_count` was incremented, and the error is dropped. -/
theorem walkLoop_goods_then_bad (e : PyVal) (he : truthy e = true) :
    ∀ (goods : List (List PyVal)) (rest : List PageSpec) (fuel pc : Nat) (acc : List PyVal),
      goods.length < fuel →
      walkLoop (pagesCursor (goods.map PageSpec.good ++ PageSpec.bad e :: rest)) fuel pc acc 0 =
        (acc ++ (goods.map filterValid).flatten, pc + goods.length + 1, goods.length + 1) := by
  intro goods
  induction goods with
  | nil =>
    intro rest fuel pc acc hf
    match fuel, hf with
    | n + 1, _ =>
      rw [List.map_nil, List.nil_append, walkLoop_pagesCursor_succ]
      simp [specOutcome, unpack2, pyIter, he]
  | cons g goods ih =>
    intro rest fuel pc acc hf
    match fuel, hf with
    | n + 1, hf =>
      have hlen : goods.length < n := by
        simpa using Nat.lt_of_succ_lt_succ hf
      rw [List.map_cons, List.cons_append, walkLoop_pagesCursor_succ]
      simp only [List.getElem?_cons_zero, specOutcome, unpack2, pyIter, truthy]
      rw [show (0 : Nat) + 1 = 0 + 1 from rfl, walkLoop_pagesCursor_shift,
        ih rest n (pc + 1) (acc ++ filterValid g) hlen]
      simp only [List.map_cons, List.flatten_cons, List.append_assoc, List.length_cons,
        Bool.false_eq_true, if_false, Prod.mk.injEq]
      exact ⟨trivial, by omega, trivial⟩

/-- C1 amended: if continuation page `k` (`k = goods.length + 2`, within the
page budget) is the first failing fetch, the walker stops there and the
aggregate contains exactly the null/invalid-filtered items of pages
`1..k-1`; but the returned `page_count` is `k` — the failed page is counted,
since `page_count` is incremented before the fetch — and the returned error
slot is `None`: the page error is logged and swallowed, not returned, and no
`terminal_reason` field exists in the return value. -/
theorem paginate_bad_page (init : List PyVal) (goods : List (List PyVal)) (e : PyVal)
    (he : truthy e = true) (rest : List PageSpec) (mp : Nat)
    (hmp : goods.length + 2 ≤ mp) :
    paginate_okta_response (.plist init)
        (pagesCursor (goods.map PageSpec.good ++ PageSpec.bad e :: rest)) .pnone mp =
      .ok ⟨.plist (filterValid init ++ (goods.map filterValid).flatten),
           .pobj 0 [("has_next", .pnone)], .pnone, goods.length + 2, goods.length + 1⟩ := by
  unfold paginate_okta_response
  rw [if_neg (by simp [truthy])]
  show Except.ok _ = _
  rw [walkLoop_goods_then_bad e he goods rest (mp - 1) 1 (filterValid init) (by omega),
    show 1 + goods.length + 1 = goods.length + 2 from by omega]
  rfl

/-- Witness for the amended C1 theorem: one good continuation page of one
item, then a failing page, with budget 3: the result holds the initial and
page-2 items, `page_count = 3`, a `None` error, and 2 fetches. -/
theorem paginate_bad_page_witness :
    paginate_okta_response (.plist [mkItem 0])
        (pagesCursor [PageSpec.good [mkItem 1], PageSpec.bad (.pexc "Exception" .pnone)])
        .pnone 3 =
      .ok ⟨.plist [mkItem 0, mkItem 1], .pobj 0 [("has_next", .pnone)], .pnone, 3, 2⟩ :=
  paginate_bad_page [mkItem 0] [[mkItem 1]] (.pexc "Exception" .pnone) rfl [] 3 (by decide)

/-- C1 counterexample, the claim's own scenario: `max_pages = 3`, a cursor
with five pages of 10 valid items each, page 3 failing.  The code returns
the 20 items of pages 1-2 as claimed, but with `page_count = 3` (not 2), a
`None` error slot (the page error is not returned to the caller), and no
`terminal_reason` at all. -/
theorem paginate_scenario_page3_fails :
    paginate_okta_response (.plist (tenItems 0))
        (pagesCursor [PageSpec.good (tenItems 10), PageSpec.bad (.pexc "Exception" .pnone),
                      PageSpec.good (tenItems 20), PageSpec.good (tenItems 30)])
        .pnone 3 =
      .ok ⟨.plist (tenItems 0 ++ tenItems 10), .pobj 0 [("has_next", .pnone)],
           .pnone, 3, 2⟩ := by
  rfl

/-- C9 amended: the walker has no empty-page detection.  If, with budget
remaining and the guard satisfied, the `f`-th fetch succeeds with a falsy
per-page error and an iterable page whose valid items are empty, the walk
simply proceeds to the next iteration with nothing appended — it does not
stop, and there is no `EMPTY_PAGE` terminal marker in the code. -/
theorem walk_continues_after_empty_page (c : Cursor) (fuel pc f : Nat) (acc : List PyVal)
    (hg : (truthy c.val && pyHasattr c.val "has_next") = true)
    (hn : PyVal) (hh : c.hasNextFn f = .ok hn) (hhn : truthy hn = true)
    (r us er : PyVal) (hr : c.nextFn f = .ok r) (hu : unpack2 r = .ok (us, er))
    (her : truthy er = false) (xs : List PyVal) (hxs : pyIter us = .ok xs)
    (hempty : filterValid xs = []) :
    walkLoop c (fuel + 1) pc acc f = walkLoop c fuel (pc + 1) acc (f + 1) := by
  conv_lhs => rw [walkLoop]
  simp [hg, hh, hhn, hr, hu, her, hxs, hempty]

/-- Witness for the amended C9 theorem: a scripted cursor whose first page is
empty; the walk with budget for one more iteration continues past it. -/
theorem walk_continues_after_empty_page_witness :
    walkLoop (pagesCursor [PageSpec.good []]) 1 1 [] 0 =
      walkLoop (pagesCursor [PageSpec.good []]) 0 2 [] 1 :=
  walk_continues_after_empty_page (pagesCursor [PageSpec.good []]) 0 1 0 []
    rfl (.pbool true) rfl rfl
    (.ptuple [.plist [], .pnone]) (.plist []) .pnone rfl rfl rfl [] rfl rfl

/-- C9 counterexample: the first continuation page is empty (no items) while
`has_next()` stays true, yet the walker does NOT stop there: it performs a
second fetch and accumulates the item of the following page, finishing with
`page_count = 3` and 2 fetches — there is no `EMPTY_PAGE` termination. -/
theorem paginate_scenario_empty_page :
    paginate_okta_response (.plist [mkItem 0])
        (pagesCursor [PageSpec.good [], PageSpec.good [mkItem 1]]) .pnone 3 =
      .ok ⟨.plist [mkItem 0, mkItem 1], .pobj 0 [("has_next", .pnone)], .pnone, 3, 2⟩ := by
  rfl

/-- Every step preserves the invariant. -/
theorem rmStep_inv {limit : Nat} {s t : RMState} (hst : RMStep limit s t)
    (hs : RMInv limit s) : RMInv limit t := by
  obtain ⟨h1, h2, h3⟩ := hs
  cases hst with
  | submitRun id h =>
    refine ⟨?_, ?_, ?_⟩ <;> simp_all <;> omega
  | submitQueue id h =>
    refine ⟨?_, ?_, ?_⟩ <;> simp_all <;> omega
  | completeNoQueue id ok h hq =>
    have hpos : 0 < s.running.length := List.length_pos.mpr (List.ne_nil_of_mem h)
    have herase : (s.running.erase id).length = s.running.length - 1 :=
      List.length_erase_of_mem h
    refine ⟨?_, ?_, ?_⟩ <;> simp_all <;> omega
  | completePromote id q ok rest h hq =>
    have hpos : 0 < s.running.length := List.length_pos.mpr (List.ne_nil_of_mem h)
    have herase : (s.running.erase id).length = s.running.length - 1 :=
      List.length_erase_of_mem h
    refine ⟨?_, ?_, ?_⟩ <;> simp_all <;> omega

/-- Every reachable state satisfies the invariant. -/
theorem rmReachable_inv {limit : Nat} {s : RMState} (h : RMReachable limit s) :
    RMInv limit s := by
  induction h with
  | start => exact ⟨rfl, Nat.zero_le _, rfl⟩
  | step _ hst ih => exact rmStep_inv hst ih

/-- C2: in every state reachable by any interleaving of submit, complete and
promote steps on one shared manager, the number of simultaneously running
calls never exceeds `concurrent_limit`, and neither does `active_requests`;
a queued request enters `running` only through the promote step, i.e. when a
completing call hands over its slot. -/
theorem rm_concurrency_bound (limit : Nat) (s : RMState) (h : RMReachable limit s) :
    s.running.length ≤ limit ∧ s.active ≤ limit := by
  obtain ⟨h1, h2, h3⟩ := rmReachable_inv h
  exact ⟨h1 ▸ h2, h2⟩

/-- Witness for C2: with `concurrent_limit = 1`, after one call is admitted
and a second is queued, one call runs and the counter is at the limit. -/
theorem rm_concurrency_bound_witness :
    (⟨1, [8], [7], 2, 0⟩ : RMState).running.length ≤ 1 ∧
    (⟨1, [8], [7], 2, 0⟩ : RMState).active ≤ 1 :=
  rm_concurrency_bound 1 ⟨1, [8], [7], 2, 0⟩
    (RMReachable.step
      (RMReachable.step RMReachable.start (RMStep.submitRun RMState.start 7 (by decide)))
      (RMStep.submitQueue ⟨1, [], [7], 1, 0⟩ 8 (by decide)))

/-- C3: slot conservation.  In any reachable state in which every submitted
call has completed (success or exception alike — the `finally` block releases
the slot exactly once either way, and a slot handed to a promoted request is
not double-counted), `active_requests` is back to its initial value 0 and the
queue is empty. -/
theorem rm_slot_conservation (limit : Nat) (s : RMState) (h : RMReachable limit s)
    (hc : s.completed = s.submitted) : s.active = 0 ∧ s.queue = [] := by
  obtain ⟨h1, h2, h3⟩ := rmReachable_inv h
  have hq : s.queue.length = 0 := by omega
  exact ⟨by omega, List.eq_nil_of_length_eq_zero hq⟩

/-- Witness for C3: one call admitted and completed (with an empty queue)
returns the manager to zero active requests. -/
theorem rm_slot_conservation_witness :
    (⟨0, [], [], 1, 1⟩ : RMState).active = 0 ∧ (⟨0, [], [], 1, 1⟩ : RMState).queue = [] :=
  rm_slot_conservation 2 ⟨0, [], [], 1, 1⟩
    (RMReachable.step
      (RMReachable.step RMReachable.start (RMStep.submitRun RMState.start 5 (by decide)))
      (RMStep.completeNoQueue ⟨1, [], [5], 1, 0⟩ 5 true (by simp) rfl))
    rfl
